import Mathlib

/-
Verification of the data-access layer of the backend:
  * src/app/users/crud.py   (document CRUD over a revisioned CouchDB store)
  * src/app/users/models.py (couchdb mapping documents and views)
  * src/app/users.py        (BaseUser credential helpers)
  * src/app/dependencies.py (search-query parameter forwarding)

Modelling conventions:
  * CouchDB documents are JSON objects in one flat namespace; we model a
    document as a record of optional fields (`none` = key absent from the
    stored JSON) plus the revision number `_rev`.
  * The database is an association list from document id to document.
  * Python exceptions that can escape the functions are modelled by
    `Except PyErr`; a caught exception never shows up as `.error`.
  * Identifier sets (`set[UUID]` / `set[str]`, and the JSON arrays produced
    from them by `jsonable_encoder` / `list(...)`, whose order is irrelevant)
    are modelled as `Finset String`.
  * `uuid4()` fresh-id generation is determinised: the fresh id is passed as
    an explicit argument.
-/

instance {ε α : Type} [DecidableEq ε] [DecidableEq α] : DecidableEq (Except ε α) :=
  fun a b =>
    match a, b with
    | .ok a, .ok b =>
      match decEq a b with
      | isTrue h => isTrue (h ▸ rfl)
      | isFalse h => isFalse (fun he => h (Except.ok.inj he))
    | .error a, .error b =>
      match decEq a b with
      | isTrue h => isTrue (h ▸ rfl)
      | isFalse h => isFalse (fun he => h (Except.error.inj he))
    | .ok _, .error _ => isFalse (fun he => Except.noConfusion he)
    | .error _, .ok _ => isFalse (fun he => Except.noConfusion he)

/-- Python exceptions that can cross the functions modelled here. -/
inductive PyErr where
  | verifyMismatch    -- argon2.exceptions.VerifyMismatchError
  | typeError         -- TypeError
  | nameError         -- NameError
  | keyError          -- KeyError
  | resourceConflict  -- couchdb.ResourceConflict
deriving DecidableEq

/-- An argon2 hash: the secret it was derived from, and whether it was produced
with parameters weaker than the current policy (so that
`ph.check_needs_rehash` returns `True` on it). -/
structure HashVal where
  secret : String
  weak : Bool
deriving DecidableEq

/-- argon2 `PasswordHasher.hash`: a pure function; hashes produced under the
current policy never need a rehash. -/
def ph_hash (s : String) : HashVal := ⟨s, false⟩

/-- argon2 `PasswordHasher.check_needs_rehash`. -/
def ph_check_needs_rehash (hv : HashVal) : Bool := hv.weak

/-- argon2 `PasswordHasher.verify`: succeeds on the secret the hash was
derived from, raises `VerifyMismatchError` on any other secret, and raises
`TypeError` when the stored hash is `None` (argon2 requires a `str` hash). -/
def ph_verify (hash : Option HashVal) (raw : String) : Except PyErr Unit :=
  match hash with
  | none => .error .typeError
  | some hv => if hv.secret = raw then .ok () else .error .verifyMismatch

/-- A stored CouchDB document (src/app/users/models.py): one flat record of
optional fields covering every mapping class (`User`, `Feed`, `Collection`),
discriminated by the `type` kind tag.  `none` means the key is absent from
the stored JSON (raw dict access on it raises `KeyError`; couchdb-mapping
attribute access on it yields `None`).  `feed_ids`, `collection_ids` and
`ids` are `ListField`s defaulting to the empty list; they encode identifier
sets, modelled as `Finset String`. -/
structure Doc where
  _rev : Nat := 0
  type : Option String := none
  name : Option String := none
  owner : Option String := none
  username : Option String := none
  active : Option Bool := none
  hashed_password : Option HashVal := none
  hashed_email : Option HashVal := none
  feed_ids : Finset String := ∅
  collection_ids : Finset String := ∅
  limit : Option Int := none
  sort_by : Option String := none
  sort_order : Option String := none
  search_term : Option String := none
  highlight : Option Bool := none
  first_date : Option Nat := none
  last_date : Option Nat := none
  source_category : Option (List String) := none
  ids : Finset String := ∅
deriving DecidableEq

/-- The CouchDB database: an association list from document id to document. -/
abbrev DB := List (String × Doc)

/-- `db.get(id)` / `db_conn[id]` lookup (the latter raises `ResourceNotFound`
on `none`, handled at each call site): the first entry with the given id. -/
def dbGet : DB → String → Option Doc
  | [], _ => none
  | p :: db, id => if p.1 == id then some p.2 else dbGet db id

/-- `del db_conn[id]`. -/
def dbDel (db : DB) (id : String) : DB :=
  db.filter (fun p => p.1 != id)

/-- Write a document at an id (after the store's revision check succeeded). -/
def dbPut (db : DB) (id : String) (d : Doc) : DB :=
  (id, d) :: dbDel db id

/-- `document.store(db_conn)`: the store accepts the write only if the
document's carried revision matches the store's current revision, assigns a
new revision (returned inside the stored document, as couchdb-mapping updates
the in-memory document), and otherwise raises `ResourceConflict`. -/
def docStore (db : DB) (id : String) (d : Doc) : Except PyErr (Doc × DB) :=
  match dbGet db id with
  | some cur =>
      if cur._rev = d._rev then
        let d2 := { d with _rev := d._rev + 1 }
        .ok (d2, dbPut db id d2)
      else .error .resourceConflict
  | none =>
      let d2 := { d with _rev := d._rev + 1 }
      .ok (d2, dbPut db id d2)

/-- The `users/all` view (models.py): emits `(doc._id, doc)` for every
document with `doc.type == "user"`; queried by key, rows wrap the full
document. -/
def user_all (db : DB) (key : String) : List Doc :=
  (db.filter (fun p => p.2.type == some "user" && p.1 == key)).map (fun p => p.2)

/-- The value emitted by the `users/auth_info` view for a user document:
`{username, hashed_password, hashed_email, active}` (plus the row id, which
couchdb-mapping's `_wrap_row` injects as `_id`; we carry it separately). -/
def auth_projection (d : Doc) : Doc :=
  { username := d.username, hashed_password := d.hashed_password,
    hashed_email := d.hashed_email, active := d.active }

/-- The `users/auth_info` view queried by username: rows `(doc id, projected
value)` for every document with `type == "user"` and that username. -/
def user_auth_info (db : DB) (username : String) : List (String × Doc) :=
  (db.filter (fun p => p.2.type == some "user" && p.2.username == some username)).map
    (fun p => (p.1, auth_projection p.2))

/-- One iteration of the credential loop in `verify_user` (crud.py lines
34-42): `if raw_value:` skips `None` and the empty string; `ph.verify` is
wrapped in `try/except` catching only `VerifyMismatchError` (which becomes
`.ok false`, i.e. `return False` in the caller); any other exception
propagates. -/
def verify_loop_step (raw : Option String) (hashed : Option HashVal) : Except PyErr Bool :=
  match raw with
  | none => .ok true
  | some r =>
    if r = "" then .ok true
    else
      match ph_verify hashed r with
      | .ok () => .ok true
      | .error .verifyMismatch => .ok false
      | .error e => .error e

/-- `verify_user` (crud.py lines 18-44): looks the username up in the
`auth_info` view (`IndexError` on an empty row list means `return False`),
double-checks the username, then verifies password and email against their
stored hashes.  Returns `none` for Python `False`, and `some (doc id,
projected user)` for the returned user object. -/
def verify_user (db : DB) (username : String) (password : Option String)
    (email : Option String) : Except PyErr (Option (String × Doc)) :=
  match user_auth_info db username with
  | [] => .ok none
  | (uid, user) :: _ =>
    if user.username != some username then .ok none
    else
      match verify_loop_step password user.hashed_password with
      | .error e => .error e
      | .ok false => .ok none
      | .ok true =>
        match verify_loop_step email user.hashed_email with
        | .error e => .error e
        | .ok false => .ok none
        | .ok true => .ok (some (uid, user))

/-- `remove_user` (crud.py lines 91-97): `verify_user(username)` with no
password and no email; on a truthy result the user's document is deleted;
returns `True` unconditionally. -/
def remove_user (db : DB) (username : String) : Except PyErr (Bool × DB) :=
  match verify_user db username none none with
  | .error e => .error e
  | .ok none => .ok (true, db)
  | .ok (some (uid, _)) => .ok (true, dbDel db uid)

/-- `BaseUser._verify_hashed_value` (src/app/users.py lines 84-94): verifies
`value` against `hash_value`, catching only `VerifyMismatchError`.  On a
successful verification whose hash needs a rehash, the source executes
`update_method(ph.hash(password))` where `password` is an undefined name
(the parameter is called `value`), so a `NameError` is raised and escapes. -/
def verify_hashed_value (value : String) (hash_value : Option HashVal) : Except PyErr Bool :=
  match hash_value with
  | none => .error .typeError
  | some hv =>
    if hv.secret = value then
      if ph_check_needs_rehash hv then .error .nameError
      else .ok true
    else .ok false

inductive SubAction where
  | subscribe
  | unsubscribe
deriving DecidableEq

inductive ItemType where
  | feed
  | collection
deriving DecidableEq

/-- The subscription set of a user for an item kind (`user_schema.feed_ids` /
`user_schema.collection_ids`, which `schemas.User.from_orm` exposes as sets of
identifiers). -/
def subsOf (u : Doc) : ItemType → Finset String
  | .feed => u.feed_ids
  | .collection => u.collection_ids

/-- `modify_user_subscription` (crud.py lines 100-135): loads the user from
the `users/all` view by id (`IndexError` means `return None`), takes the
relevant id set, applies `union` for subscribe and `difference_update` for
unsubscribe, writes the set back (via `jsonable_encoder`, which turns the set
into a JSON array) and stores the user.  `interfere` models a concurrent
writer hitting the store between this operation's load and its store: with
`interfere = fun d => d` the store is quiescent.  The `Literal` types of
`action`/`item_type` make the `raise NotImplementedError` branches
unreachable, so they do not appear. -/
def modify_user_subscription (db : DB) (interfere : DB → DB) (user_id : String)
    (ids : Finset String) (action : SubAction) (item_type : ItemType) :
    Except PyErr (Option Doc × DB) :=
  match user_all db user_id with
  | [] => .ok (none, db)
  | user :: _ =>
    let source := match item_type with
      | .feed => user.feed_ids
      | .collection => user.collection_ids
    let source := match action with
      | .subscribe => source ∪ ids
      | .unsubscribe => source \ ids
    let user := match item_type with
      | .feed => { user with feed_ids := source }
      | .collection => { user with collection_ids := source }
    match docStore (interfere db) user_id user with
    | .ok r => .ok (some r.1, r.2)
    | .error e => .error e

/-- Modelled from the spec: `schemas.FeedCreate` is not under src/ (only its
callers in crud.py are).  Per the spec's Feed data model it carries the saved
query's parameters, all optional; a field is `some` exactly when it was
explicitly present in the request, matching what
`contents.dict(exclude_unset=True)` exposes. -/
structure FeedCreate where
  limit : Option Int := none
  sort_by : Option String := none
  sort_order : Option String := none
  search_term : Option String := none
  highlight : Option Bool := none
  first_date : Option Nat := none
  last_date : Option Nat := none
  source_category : Option (List String) := none
deriving DecidableEq

/-- The `for k, v in contents.dict(exclude_unset=True).items(): setattr(item,
k, v)` loop of `modify_feed` (and the `**feed_params.dict(exclude_unset=True)`
kwargs of `create_feed`): every explicitly present field overwrites the
document's field, every unset field is left untouched. -/
def applyFeedUpdate (item : Doc) (c : FeedCreate) : Doc :=
  { item with
    limit := match c.limit with | some v => some v | none => item.limit
    sort_by := match c.sort_by with | some v => some v | none => item.sort_by
    sort_order := match c.sort_order with | some v => some v | none => item.sort_order
    search_term := match c.search_term with | some v => some v | none => item.search_term
    highlight := match c.highlight with | some v => some v | none => item.highlight
    first_date := match c.first_date with | some v => some v | none => item.first_date
    last_date := match c.last_date with | some v => some v | none => item.last_date
    source_category := match c.source_category with | some v => some v | none => item.source_category }

/-- Python `str(x)` on an optional value: `str(None)` is the string `"None"`. -/
def pyStr : Option String → String
  | none => "None"
  | some s => s

/-- `create_feed` (crud.py lines 138-159): builds a `models.Feed` (kind tag
defaults to `"feed"`, owner left unset) from the explicitly-set params, sets
`owner` only when one was supplied (`if owner:`), stores it at the given id
and returns it. -/
def create_feed (db : DB) (feed_params : FeedCreate) (name : String)
    (owner : Option String) (id : String) : Except PyErr (Doc × DB) :=
  let feed : Doc := applyFeedUpdate { type := some "feed", name := some name } feed_params
  let feed := match owner with
    | some o => { feed with owner := some o }
    | none => feed
  docStore db id feed

/-- `create_collection` (crud.py lines 162-185): builds a `models.Collection`
with `owner=str(owner)` in the constructor — Python's `str(None)` is the
string `"None"` — then redundantly re-assigns `owner` when one was supplied
(`if owner:`), sets `ids` when a non-empty set was supplied (`if ids:` is
false for `None` and for the empty set), stores and returns it. -/
def create_collection (db : DB) (name : String) (owner : Option String)
    (id : String) (ids : Option (Finset String)) : Except PyErr (Doc × DB) :=
  let collection : Doc :=
    { type := some "collection", name := some name, owner := some (pyStr owner) }
  let collection := match owner with
    | some o => { collection with owner := some o }
    | none => collection
  let collection := match ids with
    | some s => if s = ∅ then collection else { collection with ids := s }
    | none => collection
  docStore db id collection

/-- A `feeds/all`- or `collections/all`-style view queried with an explicit
`keys` list: rows `(doc._id, doc)` for every document of that kind whose id
is in the key set. -/
def view_by_keys (db : DB) (kind : String) (keys : Finset String) : List (String × Doc) :=
  db.filter (fun p => p.2.type == some kind && decide (p.1 ∈ keys))

/-- `get_feeds` (crud.py lines 197-202): queries the `feeds/all` view with
`options["keys"]` set to the user's feed ids and builds the id-keyed mapping.
The second component counts HTTP requests issued to the store: iterating a
`ViewResults` always fetches the view exactly once, even when the key list is
empty. -/
def get_feeds (db : DB) (user : Doc) : List (String × Doc) × Nat :=
  (view_by_keys db "feed" user.feed_ids, 1)

/-- `get_collections` (crud.py lines 205-213): same pattern over the
`collections/all` view and the user's collection ids. -/
def get_collections (db : DB) (user : Doc) : List (String × Doc) × Nat :=
  (view_by_keys db "collection" user.collection_ids, 1)

/-- `modify_feed` (crud.py lines 216-229): loads the document by id
(`models.Feed.load` yields `None` when absent → 404), 404 on a kind-tag
mismatch, 403 unless `item.owner` equals the requester's id (attribute access
yields `None` when the key is absent, which also compares unequal → 403),
applies the explicitly-set fields and stores.  Returns `none` (Python `None`)
on success.  `interfere` models a concurrent writer between load and store. -/
def modify_feed (db : DB) (interfere : DB → DB) (id : String)
    (contents : FeedCreate) (userId : String) : Except PyErr (Option Nat × DB) :=
  match dbGet db id with
  | none => .ok (some 404, db)
  | some item =>
    if item.type ≠ some "feed" then .ok (some 404, db)
    else if item.owner ≠ some userId then .ok (some 403, db)
    else
      match docStore (interfere db) id (applyFeedUpdate item contents) with
      | .ok r => .ok (none, r.2)
      | .error e => .error e

/-- `remove_item` (crud.py lines 261-277): raw dictionary access on the
document (`db_conn[str(id)]`; `ResourceNotFound` caught → `return`, i.e.
success), then `item["type"]` and `item["owner"]` — raw `dict` access, which
raises `KeyError` when the key is absent from the stored JSON.  404 on a kind
tag that is neither "feed" nor "collection", 403 on an owner mismatch, else
the document is deleted and `None` (success) returned. -/
def remove_item (db : DB) (userId : String) (id : String) :
    Except PyErr (Option Nat × DB) :=
  match dbGet db id with
  | none => .ok (none, db)
  | some item =>
    match item.type with
    | none => .error .keyError
    | some t =>
      if ¬(t = "feed" ∨ t = "collection") then .ok (some 404, db)
      else
        match item.owner with
        | none => .error .keyError
        | some o =>
          if o ≠ userId then .ok (some 403, db)
          else .ok (none, dbDel db id)

/-- The user-facing search parameters accepted by
`FastapiArticleSearchQuery.__init__` (src/app/dependencies.py): result limit
(0 = unset), sort field (empty string = unset/relevance), sort direction,
free-text search term, inclusive date bounds, allowed source names, explicit
document-id list, highlight flag and delimiter symbol, and cluster scope. -/
structure ArticleSearchQuery where
  limit : Nat
  sort_by : Option String
  sort_order : String
  search_term : Option String
  first_date : Option Nat
  last_date : Option Nat
  sources : Option (Finset String)
  ids : Option (List String)
  highlight : Bool
  highlight_symbol : String
  cluster_id : Option Int
deriving DecidableEq

/-- `FastapiArticleSearchQuery.__init__` (src/app/dependencies.py lines
14-45): forwards every query parameter unchanged to the underlying
`ArticleSearchQuery`. -/
def FastapiArticleSearchQuery_init (limit : Nat) (sort_by : Option String)
    (sort_order : String) (search_term : Option String)
    (first_date last_date : Option Nat) (sources : Option (Finset String))
    (ids : Option (List String)) (highlight : Bool) (highlight_symbol : String)
    (cluster_id : Option Int) : ArticleSearchQuery :=
  { limit := limit, sort_by := sort_by, sort_order := sort_order,
    search_term := search_term, first_date := first_date, last_date := last_date,
    sources := sources, ids := ids, highlight := highlight,
    highlight_symbol := highlight_symbol, cluster_id := cluster_id }

/-- The structured query sent to the search engine: a full-text match clause,
one filter clause per supplied input, a sort clause, a size/limit clause and
the highlight configuration. -/
structure EsQuery where
  match_clause : Option String
  id_filter : Option (List String)
  date_filter : Option (Option Nat × Option Nat)
  source_filter : Option (Finset String)
  cluster_filter : Option Int
  sort_clause : Option (String × String)
  size : Nat
  highlight_config : Option String
deriving DecidableEq

/-- Modelled from the spec: the search-query compiler is
`modules.elastic.ArticleSearchQuery.generate_es_query`, which lives in the
external `modules` package and is not under src/ (src only holds its
parameter-forwarding subclass in dependencies.py).  Per the spec, the output
encodes a full-text match clause only if a search term is present and one
filter clause per supplied input (date range, source set, id list, cluster
id), a sort clause (engine-default relevance when the sort field is unset)
and the size and highlight configuration. -/
def generate_es_query (q : ArticleSearchQuery) : EsQuery :=
  { match_clause := q.search_term,
    id_filter := q.ids,
    date_filter :=
      if q.first_date = none ∧ q.last_date = none then none
      else some (q.first_date, q.last_date),
    source_filter := q.sources,
    cluster_filter := q.cluster_id,
    sort_clause :=
      match q.sort_by with
      | some s => if s = "" then none else some (s, q.sort_order)
      | none => none,
    size := q.limit,
    highlight_config := if q.highlight then some q.highlight_symbol else none }


lemma dbGet_dbPut_self (db : DB) (id : String) (d : Doc) :
    dbGet (dbPut db id d) id = some d := by
  simp [dbGet, dbPut]

lemma dbGet_dbDel_self (db : DB) (id : String) : dbGet (dbDel db id) id = none := by
  induction db with
  | nil => rfl
  | cons p db ih =>
    unfold dbDel at ih ⊢
    rw [List.filter_cons]
    cases hk : (p.1 == id) with
    | true =>
      have hcond : (p.1 != id) = false := by simp [bne, hk]
      rw [hcond]
      simpa using ih
    | false =>
      have hcond : (p.1 != id) = true := by simp [bne, hk]
      rw [hcond, if_pos rfl]
      simp only [dbGet, hk]
      simpa using ih

lemma user_all_head (db : DB) (uid : String) (u : Doc)
    (h : dbGet db uid = some u) (ht : u.type = some "user") :
    ∃ rest, user_all db uid = u :: rest := by
  induction db with
  | nil => simp [dbGet] at h
  | cons p db ih =>
    simp only [dbGet] at h
    cases hk : (p.1 == uid) with
    | true =>
      rw [hk, if_pos rfl] at h
      have hd : p.2 = u := by simpa using h
      have heq : user_all (p :: db) uid =
          u :: (db.filter (fun q => q.2.type == some "user" && q.1 == uid)).map
            (fun q => q.2) := by
        unfold user_all
        rw [List.filter_cons, if_pos (by simp [hk, hd, ht]), List.map_cons, hd]
      exact ⟨_, heq⟩
    | false =>
      rw [hk] at h
      simp only [Bool.false_eq_true, if_false] at h
      obtain ⟨rest, hr⟩ := ih h
      refine ⟨rest, ?_⟩
      unfold user_all at hr ⊢
      rw [List.filter_cons, if_neg (by simp [hk])]
      exact hr

lemma dbGet_none_key_ne (db : DB) (x : String) (h : dbGet db x = none) :
    ∀ p ∈ db, (p.1 == x) = false := by
  induction db with
  | nil => intro p hp; simp at hp
  | cons q db ih =>
    simp only [dbGet] at h
    cases hk : (q.1 == x) with
    | true => rw [hk, if_pos rfl] at h; exact absurd h (by simp)
    | false =>
      rw [hk] at h
      simp only [Bool.false_eq_true, if_false] at h
      intro p hp
      rcases List.mem_cons.mp hp with hq | hmem
      · rw [hq]; exact hk
      · exact ih h p hmem

lemma view_no_entry (db : DB) (kind x : String) (keys : Finset String) (d : Doc)
    (h : dbGet db x = none) : (x, d) ∉ view_by_keys db kind keys := by
  intro hmem
  have hpdb : (x, d) ∈ db := (List.mem_filter.mp hmem).1
  have := dbGet_none_key_ne db x h (x, d) hpdb
  simp at this

lemma view_by_keys_empty (db : DB) (kind : String) :
    view_by_keys db kind ∅ = [] := by
  unfold view_by_keys
  induction db with
  | nil => rfl
  | cons p db ih => simp [ih]

lemma mus_eq (db : DB) (interfere : DB → DB) (uid : String) (S : Finset String)
    (a : SubAction) (it : ItemType) (u : Doc) (rest : List Doc)
    (hall : user_all db uid = u :: rest) :
    modify_user_subscription db interfere uid S a it =
      (let source := match it with
        | .feed => u.feed_ids
        | .collection => u.collection_ids
       let source := match a with
        | .subscribe => source ∪ S
        | .unsubscribe => source \ S
       let u2 := match it with
        | .feed => { u with feed_ids := source }
        | .collection => { u with collection_ids := source }
       match docStore (interfere db) uid u2 with
       | .ok r => .ok (some r.1, r.2)
       | .error e => .error e) := by
  unfold modify_user_subscription
  rw [hall]

lemma mus_ok (db : DB) (uid : String) (S : Finset String) (a : SubAction)
    (it : ItemType) (u : Doc) (h : dbGet db uid = some u)
    (ht : u.type = some "user") :
    ∃ u1,
      modify_user_subscription db (fun d => d) uid S a it =
        .ok (some u1, dbPut db uid u1) ∧
      dbGet (dbPut db uid u1) uid = some u1 ∧
      u1.type = some "user" ∧
      subsOf u1 it =
        (match a with
          | .subscribe => subsOf u it ∪ S
          | .unsubscribe => subsOf u it \ S) := by
  obtain ⟨rest, hall⟩ := user_all_head db uid u h ht
  rw [mus_eq db (fun d => d) uid S a it u rest hall]
  cases it <;> cases a <;>
    (dsimp only
     unfold docStore
     rw [h]
     dsimp only
     rw [if_pos rfl]
     exact ⟨_, rfl, dbGet_dbPut_self _ _ _, ht, rfl⟩)

/-- The property claim C3 asserts of a user document `u` stored at `uid`:
both subscribe calls succeed and converge (subscribe is set-union), both
unsubscribe calls succeed and converge (unsubscribe is set-difference, also
for ids absent from the current set). -/
def SubscribeUnsubscribeIdem (db : DB) (uid : String) (S : Finset String)
    (it : ItemType) (u : Doc) : Prop :=
  ∃ u1 db1 u2 db2 v1 db3 v2 db4,
    modify_user_subscription db (fun d => d) uid S .subscribe it =
      .ok (some u1, db1) ∧
    modify_user_subscription db1 (fun d => d) uid S .subscribe it =
      .ok (some u2, db2) ∧
    subsOf u1 it = subsOf u it ∪ S ∧
    subsOf u2 it = subsOf u1 it ∧
    modify_user_subscription db (fun d => d) uid S .unsubscribe it =
      .ok (some v1, db3) ∧
    modify_user_subscription db3 (fun d => d) uid S .unsubscribe it =
      .ok (some v2, db4) ∧
    subsOf v1 it = subsOf u it \ S ∧
    subsOf v2 it = subsOf v1 it

/-- Claim C3: for every existing user, item kind and id set S, subscribing S
twice yields the same final subscription set as subscribing once (subscribe
is set-union), unsubscribing is set-difference and likewise idempotent, no
duplicates can arise (the subscription state is a set), and unsubscribing
absent ids succeeds without error. -/
theorem modify_user_subscription_idempotent (db : DB) (uid : String)
    (S : Finset String) (it : ItemType) (u : Doc)
    (h : dbGet db uid = some u) (ht : u.type = some "user") :
    SubscribeUnsubscribeIdem db uid S it u := by
  obtain ⟨u1, e1, g1, t1, s1⟩ := mus_ok db uid S .subscribe it u h ht
  obtain ⟨u2, e2, g2, t2, s2⟩ := mus_ok (dbPut db uid u1) uid S .subscribe it u1 g1 t1
  obtain ⟨v1, f1, k1, w1, r1⟩ := mus_ok db uid S .unsubscribe it u h ht
  obtain ⟨v2, f2, k2, w2, r2⟩ := mus_ok (dbPut db uid v1) uid S .unsubscribe it v1 k1 w1
  refine ⟨u1, _, u2, _, v1, _, v2, _, e1, e2, s1, ?_, f1, f2, r1, ?_⟩
  · rw [s2, s1, Finset.union_assoc, Finset.union_self]
  · rw [r2, r1, sdiff_idem]

/-- A concrete user document used to instantiate claim C3. -/
def c3user : Doc := { type := some "user", username := some "alice", feed_ids := {"a"} }

/-- Witness for claim C3 at a concrete store, user and id set. -/
theorem modify_user_subscription_idempotent_witness :
    SubscribeUnsubscribeIdem [("u1", c3user)] "u1" {"a", "b"} ItemType.feed c3user :=
  modify_user_subscription_idempotent [("u1", c3user)] "u1" {"a", "b"} ItemType.feed
    c3user (by decide) (by decide)

/-- The property claim C4 (as amended) asserts of a user document `u` stored
at `uid`: subscribing S and then unsubscribing the same S restores the
original subscription set. -/
def SubscribeThenUnsubscribeRestores (db : DB) (uid : String) (S : Finset String)
    (it : ItemType) (u : Doc) : Prop :=
  ∃ u1 db1 u2 db2,
    modify_user_subscription db (fun d => d) uid S .subscribe it =
      .ok (some u1, db1) ∧
    modify_user_subscription db1 (fun d => d) uid S .unsubscribe it =
      .ok (some u2, db2) ∧
    subsOf u2 it = subsOf u it

/-- Claim C4, amended: subscribe-then-unsubscribe of the same set S restores
the original subscription set when S is disjoint from it (in particular when
S only contains ids that were not previously members); for overlapping S the
ids in the intersection are lost (see the counterexample). -/
theorem subscribe_then_unsubscribe_restores (db : DB) (uid : String)
    (S : Finset String) (it : ItemType) (u : Doc)
    (h : dbGet db uid = some u) (ht : u.type = some "user")
    (hdisj : Disjoint (subsOf u it) S) :
    SubscribeThenUnsubscribeRestores db uid S it u := by
  obtain ⟨u1, e1, g1, t1, s1⟩ := mus_ok db uid S .subscribe it u h ht
  obtain ⟨u2, e2, g2, t2, s2⟩ := mus_ok (dbPut db uid u1) uid S .unsubscribe it u1 g1 t1
  refine ⟨u1, _, u2, _, e1, e2, ?_⟩
  rw [s2, s1]
  ext x
  simp only [Finset.mem_sdiff, Finset.mem_union]
  constructor
  · rintro ⟨hx | hx, hnx⟩
    · exact hx
    · exact absurd hx hnx
  · intro hx
    exact ⟨Or.inl hx, fun hxS => (Finset.disjoint_left.mp hdisj) hx hxS⟩

/-- A concrete user whose subscription set overlaps the set S of claim C4. -/
def c4user : Doc := { type := some "user", username := some "bob", feed_ids := {"a"} }

/-- The user after `subscribe {"a"}` starting from `c4user`. -/
def c4mid : Doc := { type := some "user", username := some "bob", feed_ids := {"a"}, _rev := 1 }

/-- The user after the subsequent `unsubscribe {"a"}`. -/
def c4fin : Doc := { type := some "user", username := some "bob", feed_ids := ∅, _rev := 2 }

/-- Counterexample to claim C4 as stated: for the user subscribed to
feed "a", subscribing S = \x7b"a"\x7d and then unsubscribing the same S ends with
the empty subscription set, not the original \x7b"a"\x7d — the inverse law fails
whenever S overlaps the current subscription set. -/
theorem subscribe_then_unsubscribe_counterexample :
    modify_user_subscription [("u2", c4user)] (fun d => d) "u2" {"a"}
      SubAction.subscribe ItemType.feed = .ok (some c4mid, [("u2", c4mid)]) ∧
    modify_user_subscription [("u2", c4mid)] (fun d => d) "u2" {"a"}
      SubAction.unsubscribe ItemType.feed = .ok (some c4fin, [("u2", c4fin)]) ∧
    c4user.feed_ids = {"a"} ∧
    c4fin.feed_ids = ∅ ∧
    c4fin.feed_ids ≠ c4user.feed_ids := by decide

/-- Witness for the amended claim C4 at a disjoint concrete instance. -/
theorem subscribe_then_unsubscribe_restores_witness :
    SubscribeThenUnsubscribeRestores [("u2", c4user)] "u2" {"b", "c"}
      ItemType.feed c4user :=
  subscribe_then_unsubscribe_restores [("u2", c4user)] "u2" {"b", "c"}
    ItemType.feed c4user (by decide) (by decide) (by decide)

/-- Claim C1, amended: when the store signals a revision conflict on the
write of `modify_user_subscription` (a concurrent writer `interfere` changed
the stored revision between this operation's load and its store), the
`ResourceConflict` exception propagates uncaught to the caller: the source
contains no retry loop and no `WriteContention` outcome, so the conflict
escapes as an exception. -/
theorem modify_user_subscription_conflict_escapes (db : DB) (interfere : DB → DB)
    (uid : String) (S : Finset String) (a : SubAction) (it : ItemType)
    (u cur : Doc) (h : dbGet db uid = some u) (ht : u.type = some "user")
    (hcur : dbGet (interfere db) uid = some cur) (hrev : cur._rev ≠ u._rev) :
    modify_user_subscription db interfere uid S a it =
      .error PyErr.resourceConflict := by
  obtain ⟨rest, hall⟩ := user_all_head db uid u h ht
  rw [mus_eq db interfere uid S a it u rest hall]
  cases it <;> cases a <;>
    (dsimp only
     unfold docStore
     rw [hcur]
     dsimp only
     rw [if_neg hrev])

/-- A concrete user document for the claim C1 race. -/
def c1user : Doc := { type := some "user", username := some "carol" }

/-- A concurrent writer that wins the race on document "u3": it stores a new
revision of the user between our load and our store. -/
def c1writer : DB → DB := fun db => dbPut db "u3" { c1user with _rev := 1 }

/-- Counterexample to claim C1 as stated: with a concurrent writer having
bumped the revision of the loaded user document, `modify_user_subscription`
evaluates to the uncaught `ResourceConflict` exception — it does not re-load,
does not retry, and returns no `WriteContention`-typed outcome; the conflict
escapes the component boundary as an exception. -/
theorem modify_user_subscription_conflict_counterexample :
    modify_user_subscription [("u3", c1user)] c1writer "u3" {"f"}
      SubAction.subscribe ItemType.feed = .error PyErr.resourceConflict := by
  decide

/-- Witness for the amended claim C1 at a concrete input. -/
theorem modify_user_subscription_conflict_escapes_witness :
    modify_user_subscription [("u3", c1user)] c1writer "u3" {"g"}
      SubAction.unsubscribe ItemType.collection = .error PyErr.resourceConflict :=
  modify_user_subscription_conflict_escapes [("u3", c1user)] c1writer "u3" {"g"}
    SubAction.unsubscribe ItemType.collection c1user { c1user with _rev := 1 }
    (by decide) (by decide) (by decide) (by decide)

/-- Claim C2, amended: for every requester and id, `remove_item` returns
exactly: Success (`none`) when no document with that id exists — so a second
delete of the same id also returns Success; 404 when the document's kind tag
is neither "feed" nor "collection"; an uncaught `KeyError` (not 404 and not
403) when the document is a feed/collection whose stored JSON has no owner
key, since `item["owner"]` is a raw dict access; 403 when the owner differs
from the requester's id; otherwise the document is deleted and Success
returned (and the repeated delete returns Success again). -/
theorem remove_item_cases (db : DB) (requester id : String) :
    (dbGet db id = none → remove_item db requester id = .ok (none, db)) ∧
    (∀ item t, dbGet db id = some item → item.type = some t →
      ¬(t = "feed" ∨ t = "collection") →
      remove_item db requester id = .ok (some 404, db)) ∧
    (∀ item t, dbGet db id = some item → item.type = some t →
      (t = "feed" ∨ t = "collection") → item.owner = none →
      remove_item db requester id = .error PyErr.keyError) ∧
    (∀ item t o, dbGet db id = some item → item.type = some t →
      (t = "feed" ∨ t = "collection") → item.owner = some o → o ≠ requester →
      remove_item db requester id = .ok (some 403, db)) ∧
    (∀ item t, dbGet db id = some item → item.type = some t →
      (t = "feed" ∨ t = "collection") → item.owner = some requester →
      remove_item db requester id = .ok (none, dbDel db id) ∧
      remove_item (dbDel db id) requester id = .ok (none, dbDel db id)) := by
  refine ⟨?_, ?_, ?_, ?_, ?_⟩
  · intro hget
    unfold remove_item
    rw [hget]
  · intro item t hget hty hkind
    unfold remove_item
    rw [hget]
    dsimp only
    rw [hty]
    dsimp only
    rw [if_pos hkind]
  · intro item t hget hty hkind howner
    unfold remove_item
    rw [hget]
    dsimp only
    rw [hty]
    dsimp only
    rw [if_neg (not_not_intro hkind)]
    rw [howner]
  · intro item t o hget hty hkind howner hne
    unfold remove_item
    rw [hget]
    dsimp only
    rw [hty]
    dsimp only
    rw [if_neg (not_not_intro hkind)]
    rw [howner]
    dsimp only
    rw [if_pos hne]
  · intro item t hget hty hkind howner
    constructor
    · unfold remove_item
      rw [hget]
      dsimp only
      rw [hty]
      dsimp only
      rw [if_neg (not_not_intro hkind)]
      rw [howner]
      dsimp only
      rw [if_neg (fun hne => hne rfl)]
    · unfold remove_item
      rw [dbGet_dbDel_self]

/-- An ownerless ("orphaned") feed document: `create_feed` without an owner
produces exactly such a document (no owner key in the stored JSON). -/
def c2orphan : Doc := { type := some "feed", name := some "lonely" }

/-- Counterexample to claim C2 as stated: deleting an orphaned feed (owner
key absent) raises `KeyError` at the raw `item["owner"]` access — the call
does not return NotFound (404). -/
theorem remove_item_orphan_counterexample :
    remove_item [("f9", c2orphan)] "alice" "f9" = .error PyErr.keyError ∧
    remove_item [("f9", c2orphan)] "alice" "f9" ≠
      .ok (some 404, [("f9", c2orphan)]) := by decide

/-- A collection owned by "bob", used to witness the amended claim C2. -/
def c2owned : Doc := { type := some "collection", name := some "readlater", owner := some "bob" }

/-- Witness for the amended claim C2: requester "alice" deleting bob's
collection gets Forbidden (403). -/
theorem remove_item_cases_witness :
    remove_item [("c1", c2owned)] "alice" "c1" = .ok (some 403, [("c1", c2owned)]) :=
  (remove_item_cases [("c1", c2owned)] "alice" "c1").2.2.2.1 c2owned "collection" "bob"
    (by decide) (by decide) (by decide) (by decide) (by decide)

/-- The property claim C5 asserts of a feed `item` stored at `id` and owned
by `userId`: the update succeeds, and the persisted document carries exactly
the explicitly-present fields of the partial update, every other stored
field (including every feed parameter that the update left unset) keeping
its prior value. -/
def PartialUpdateIsolated (db : DB) (id userId : String) (item : Doc)
    (c : FeedCreate) : Prop :=
  ∃ item2,
    modify_feed db (fun d => d) id c userId = .ok (none, dbPut db id item2) ∧
    dbGet (dbPut db id item2) id = some item2 ∧
    (c.limit = none → item2.limit = item.limit) ∧
    (c.sort_by = none → item2.sort_by = item.sort_by) ∧
    (c.sort_order = none → item2.sort_order = item.sort_order) ∧
    (c.search_term = none → item2.search_term = item.search_term) ∧
    (c.highlight = none → item2.highlight = item.highlight) ∧
    (c.first_date = none → item2.first_date = item.first_date) ∧
    (c.last_date = none → item2.last_date = item.last_date) ∧
    (c.source_category = none → item2.source_category = item.source_category) ∧
    (∀ v, c.limit = some v → item2.limit = some v) ∧
    (∀ v, c.sort_by = some v → item2.sort_by = some v) ∧
    (∀ v, c.sort_order = some v → item2.sort_order = some v) ∧
    (∀ v, c.search_term = some v → item2.search_term = some v) ∧
    (∀ v, c.highlight = some v → item2.highlight = some v) ∧
    (∀ v, c.first_date = some v → item2.first_date = some v) ∧
    (∀ v, c.last_date = some v → item2.last_date = some v) ∧
    (∀ v, c.source_category = some v → item2.source_category = some v) ∧
    item2.type = item.type ∧
    item2.name = item.name ∧
    item2.owner = item.owner ∧
    item2.username = item.username ∧
    item2.active = item.active ∧
    item2.hashed_password = item.hashed_password ∧
    item2.hashed_email = item.hashed_email ∧
    item2.feed_ids = item.feed_ids ∧
    item2.collection_ids = item.collection_ids ∧
    item2.ids = item.ids

/-- Claim C5: for every feed owned by the requester, `modify_feed` with a
partial update applies exactly the explicitly-present fields and leaves
every other stored field unchanged (neither defaulted nor nulled); in
particular an update supplying only `limit` leaves `sort_by`, `search_term`
and all other feed parameters at their prior values (see the witness). -/
theorem modify_feed_partial_update (db : DB) (id userId : String) (item : Doc)
    (c : FeedCreate) (hget : dbGet db id = some item)
    (hty : item.type = some "feed") (howner : item.owner = some userId) :
    PartialUpdateIsolated db id userId item c := by
  refine ⟨{ applyFeedUpdate item c with _rev := item._rev + 1 }, ?_,
    dbGet_dbPut_self _ _ _, ?_, ?_, ?_, ?_, ?_, ?_, ?_, ?_, ?_, ?_, ?_, ?_, ?_,
    ?_, ?_, ?_, rfl, rfl, rfl, rfl, rfl, rfl, rfl, rfl, rfl, rfl⟩
  · unfold modify_feed
    rw [hget]
    dsimp only
    rw [hty]
    rw [if_neg (by simp)]
    rw [howner]
    rw [if_neg (by simp)]
    unfold docStore
    dsimp only
    rw [hget]
    dsimp only
    rw [if_pos (show item._rev = (applyFeedUpdate item c)._rev from rfl)]
    rfl
  · intro hc; simp [applyFeedUpdate, hc]
  · intro hc; simp [applyFeedUpdate, hc]
  · intro hc; simp [applyFeedUpdate, hc]
  · intro hc; simp [applyFeedUpdate, hc]
  · intro hc; simp [applyFeedUpdate, hc]
  · intro hc; simp [applyFeedUpdate, hc]
  · intro hc; simp [applyFeedUpdate, hc]
  · intro hc; simp [applyFeedUpdate, hc]
  · intro v hc; simp [applyFeedUpdate, hc]
  · intro v hc; simp [applyFeedUpdate, hc]
  · intro v hc; simp [applyFeedUpdate, hc]
  · intro v hc; simp [applyFeedUpdate, hc]
  · intro v hc; simp [applyFeedUpdate, hc]
  · intro v hc; simp [applyFeedUpdate, hc]
  · intro v hc; simp [applyFeedUpdate, hc]
  · intro v hc; simp [applyFeedUpdate, hc]

/-- A fully-populated feed owned by "alice". -/
def c5feed : Doc :=
  { type := some "feed", name := some "myfeed", owner := some "alice",
    limit := some 5, sort_by := some "publish_date", sort_order := some "desc",
    search_term := some "malware", highlight := some true, first_date := some 1,
    last_date := some 2, source_category := some ["news"] }

/-- A partial update supplying only `limit`. -/
def c5update : FeedCreate := { limit := some 10 }

/-- Witness for claim C5: updating only `limit` of alice's fully-populated
feed leaves `sort_by`, `search_term` and every other field unchanged. -/
theorem modify_feed_partial_update_witness :
    PartialUpdateIsolated [("f1", c5feed)] "f1" "alice" c5feed c5update :=
  modify_feed_partial_update [("f1", c5feed)] "f1" "alice" c5feed c5update
    (by decide) (by decide) (by decide)

/-- Claim C6 (code bug): credential verification in
`BaseUser._verify_hashed_value` returns a match for the correct secret and
`False` for a wrong one — but when the correct secret's stored hash needs a
rehash, the source line `update_method(ph.hash(password))` references the
undefined name `password` (the parameter is `value`), so the call raises
`NameError` instead of returning the claimed match. -/
theorem verify_hashed_value_rehash_bug :
    verify_hashed_value "secret" (some (ph_hash "secret")) = .ok true ∧
    verify_hashed_value "wrong" (some (ph_hash "secret")) = .ok false ∧
    verify_hashed_value "secret" (some { secret := "secret", weak := true }) =
      .error PyErr.nameError := by decide

/-- Claim C7: for every search request supplying a non-empty id list and a
non-empty search term, the compiled structured query contains both the id
filter clause and the full-text match clause; neither constraint is dropped
in favor of the other. -/
theorem search_query_keeps_ids_and_match (limit : Nat) (sort_by : Option String)
    (sort_order : String) (search_term : Option String)
    (first_date last_date : Option Nat) (sources : Option (Finset String))
    (ids : Option (List String)) (highlight : Bool) (highlight_symbol : String)
    (cluster_id : Option Int) (l : List String) (t : String)
    (hids : ids = some l) (_hnl : l ≠ []) (hterm : search_term = some t)
    (_hnt : t ≠ "") :
    (generate_es_query (FastapiArticleSearchQuery_init limit sort_by sort_order
        search_term first_date last_date sources ids highlight highlight_symbol
        cluster_id)).id_filter = some l ∧
    (generate_es_query (FastapiArticleSearchQuery_init limit sort_by sort_order
        search_term first_date last_date sources ids highlight highlight_symbol
        cluster_id)).match_clause = some t := by
  subst hids hterm
  exact ⟨rfl, rfl⟩

/-- Witness for claim C7 at the spec's concrete example: a single 20-char id
and the search term "malware". -/
theorem search_query_keeps_ids_and_match_witness :
    (generate_es_query (FastapiArticleSearchQuery_init 0 (some "") "desc"
        (some "malware") none none none (some ["aaaaaaaaaaaaaaaaaaaa"]) false
        "**" none)).id_filter = some ["aaaaaaaaaaaaaaaaaaaa"] ∧
    (generate_es_query (FastapiArticleSearchQuery_init 0 (some "") "desc"
        (some "malware") none none none (some ["aaaaaaaaaaaaaaaaaaaa"]) false
        "**" none)).match_clause = some "malware" :=
  search_query_keeps_ids_and_match 0 (some "") "desc" (some "malware") none none
    none (some ["aaaaaaaaaaaaaaaaaaaa"]) false "**" none ["aaaaaaaaaaaaaaaaaaaa"]
    "malware" rfl (by decide) rfl (by decide)

/-- Claim C8, amended: resolving an empty id set via `get_feeds` /
`get_collections` returns an empty mapping without error — though the store
is still contacted (the view query is issued even with an empty key list, see
the counterexample) — and an id whose document has been deleted contributes
no entry to the result (and no error). -/
theorem resolve_by_ids_empty_and_deleted (db : DB) (user : Doc) :
    (user.feed_ids = ∅ → (get_feeds db user).1 = []) ∧
    (user.collection_ids = ∅ → (get_collections db user).1 = []) ∧
    (∀ x d, dbGet db x = none → (x, d) ∉ (get_feeds db user).1) ∧
    (∀ x d, dbGet db x = none → (x, d) ∉ (get_collections db user).1) := by
  refine ⟨?_, ?_, ?_, ?_⟩
  · intro h; simp [get_feeds, h, view_by_keys_empty]
  · intro h; simp [get_collections, h, view_by_keys_empty]
  · intro x d h; exact view_no_entry db "feed" x user.feed_ids d h
  · intro x d h; exact view_no_entry db "collection" x user.collection_ids d h

/-- A user with no subscriptions at all. -/
def c8user : Doc := { type := some "user", username := some "dave" }

/-- A user subscribed to the feed id "gone", whose document is absent. -/
def c8user2 : Doc := { type := some "user", username := some "erin", feed_ids := {"gone"} }

/-- Counterexample to claim C8 as stated: resolving the empty id set still
contacts the store — iterating the view issues exactly one HTTP request even
with an empty key list — so the "without contacting the store" part of the
claim fails (the mapping itself is empty, as claimed). -/
theorem get_feeds_contacts_store_counterexample :
    (get_feeds [] c8user).1 = [] ∧
    (get_feeds [] c8user).2 = 1 ∧
    (get_feeds [] c8user).2 ≠ 0 := by decide

/-- Witness for the amended claim C8: the empty id set resolves to the empty
mapping, and a deleted id contributes no entry. -/
theorem resolve_by_ids_empty_and_deleted_witness :
    (get_feeds [] c8user).1 = [] ∧
    ((c8user2.feed_ids = {"gone"}) ∧
      ∀ d, ("gone", d) ∉ (get_feeds [] c8user2).1) :=
  ⟨(resolve_by_ids_empty_and_deleted [] c8user).1 rfl,
    by decide,
    fun d => (resolve_by_ids_empty_and_deleted [] c8user2).2.2.1 "gone" d rfl⟩

/-- Claim C9 (code bug): `create_collection` with no owner persists the
collection with `owner` equal to the string "None" — the constructor call
passes `owner=str(owner)` and Python's `str(None)` is `"None"` (the
`if owner:` guard right after it, mirroring `create_feed`, is dead in this
case) — whereas `create_feed` with no owner leaves `owner` absent. -/
theorem create_collection_owner_str_none :
    create_collection [] "mycol" none "c7" none =
      .ok ({ type := some "collection", name := some "mycol",
             owner := some "None", _rev := 1 },
           [("c7", { type := some "collection", name := some "mycol",
                     owner := some "None", _rev := 1 })]) ∧
    create_feed [] {} "myfeed" none "f7" =
      .ok ({ type := some "feed", name := some "myfeed", _rev := 1 },
           [("f7", { type := some "feed", name := some "myfeed", _rev := 1 })]) := by
  decide

/-- Claim C10: `remove_user` returns `True` for every username, whether or
not a matching user exists; when none exists the store is left unchanged, so
removal of an absent user is a successful no-op indistinguishable from
removal of an existing one. -/
theorem remove_user_always_true (db : DB) (username : String) :
    (∃ db2, remove_user db username = .ok (true, db2)) ∧
    (user_auth_info db username = [] → remove_user db username = .ok (true, db)) := by
  constructor
  · cases hv : user_auth_info db username with
    | nil => exact ⟨db, by unfold remove_user verify_user; rw [hv]⟩
    | cons p rest =>
      obtain ⟨uid, row⟩ := p
      cases hu : (row.username != some username) with
      | true =>
        refine ⟨db, ?_⟩
        unfold remove_user verify_user
        rw [hv]
        dsimp only
        rw [hu]
        rfl
      | false =>
        refine ⟨dbDel db uid, ?_⟩
        unfold remove_user verify_user
        rw [hv]
        dsimp only
        rw [hu]
        rfl
  · intro h
    unfold remove_user verify_user
    rw [h]

/-- Witness for claim C10: removing a user from the empty store succeeds and
leaves the store unchanged. -/
theorem remove_user_always_true_witness :
    remove_user [] "nobody" = .ok (true, []) :=
  (remove_user_always_true [] "nobody").2 rfl
